import Mathlib

/-!
# Verification of the quotes-aggregator service

Shallow embedding of the idempotency subsystem, the quote service and the
circuit breaker of the quotes-aggregator repository, with theorems settling
the behavioural claims about them.

* `IdempotencyService` models `service/src/common/services/idempotency.service.ts`
  (the in-memory keyed cache with TTL-based lazy eviction).
* `IdempotencyInterceptor.intercept` models
  `service/src/common/interceptors/idempotency.interceptor.ts`.
* `QuotesService` models `quotes.service.ts`: the rate table, the simulated
  external aggregator call, the breaker fallback, quote creation and lookup.
* `Breaker` models the circuit-breaker state machine from the design
  specification (the breaker implementation is the external `opossum`
  dependency, not part of the repository sources).

JavaScript `Map`s are modelled as functions `String → Option _` with pointwise
update; `Date.now()` timestamps are passed explicitly as integers; the money
arithmetic of the rate table is carried out in `ℚ`, where the decimal literals
of the source are exact.
-/

namespace QuotesAggregator

/-! ## Idempotency store (`idempotency.service.ts`) -/

/-- A stored cache record: `{ body, createdAt }`. -/
structure CachedEntry (α : Type) where
  body : α
  createdAt : ℤ
deriving Repr, DecidableEq

/-- State of `IdempotencyService`: the `Map` plus the configured TTL in
milliseconds. -/
structure IdempotencyState (α : Type) where
  store : String → Option (CachedEntry α)
  ttlMs : ℤ

/-- Constructor: the TTL comes from config `idempotency.ttlSeconds` with
default `86400`, multiplied by `1000`. The store starts empty. -/
def IdempotencyService.init (α : Type) (ttlSecondsConfig : Option ℤ) :
    IdempotencyState α :=
  { store := fun _ => none, ttlMs := ttlSecondsConfig.getD 86400 * 1000 }

/-- `IdempotencyService.get`: a missing key is a miss; a present entry is a
hit when `now - entry.createdAt < ttlMs`, otherwise it is evicted and the
lookup is a miss. Returns the lookup result together with the updated state. -/
def IdempotencyService.get (s : IdempotencyState α) (key : String) (now : ℤ) :
    Option (CachedEntry α) × IdempotencyState α :=
  match s.store key with
  | none => (none, s)
  | some entry =>
      if now - entry.createdAt < s.ttlMs then
        (some entry, s)
      else
        (none, { s with store := fun k => if k = key then none else s.store k })

/-- `IdempotencyService.set`: stores `{ body, createdAt := now }` under `key`
(a plain `Map.set`). -/
def IdempotencyService.set (s : IdempotencyState α) (key : String) (body : α)
    (now : ℤ) : IdempotencyState α :=
  { s with
    store := fun k =>
      if k = key then some { body := body, createdAt := now } else s.store k }

/-! ## UUID v4 validation (`idempotency.interceptor.ts`)

The regular expression
`/^[0-9a-f]8-[0-9a-f]4-4[0-9a-f]3-[89ab][0-9a-f]3-[0-9a-f]12$/i`
(with the counts in braces in the source) is transcribed positionally:
36 characters, hyphens at indices 8, 13, 18, 23, the literal `4` at index 14,
one of `8`, `9`, `a`, `b` (case-insensitively) at index 19, and
case-insensitive hex digits everywhere else. -/

/-- A case-insensitive hex digit, as matched by `[0-9a-f]` under the `i` flag. -/
def isHexDigitCI (c : Char) : Bool :=
  (48 ≤ c.toNat && c.toNat ≤ 57) ||
  (97 ≤ c.toNat && c.toNat ≤ 102) ||
  (65 ≤ c.toNat && c.toNat ≤ 70)

/-- What the UUID-v4 regex requires of the character at index `i`. -/
def uuidCharOk (i : ℕ) (c : Char) : Bool :=
  if i = 8 || i = 13 || i = 18 || i = 23 then c == '-'
  else if i = 14 then c == '4'
  else if i = 19 then
    c == '8' || c == '9' || c == 'a' || c == 'b' || c == 'A' || c == 'B'
  else isHexDigitCI c

/-- `UUID_V4.test(key)`. -/
def UUID_V4_test (s : String) : Bool :=
  s.toList.length == 36 && s.toList.enum.all fun p => uuidCharOk p.1 p.2

/-! ## Idempotency interceptor (`idempotency.interceptor.ts`) -/

/-- The observable outcome of one interception: a thrown
`BadRequestException` with its `code`, a cached response short-circuiting the
handler, a freshly created response, or a handler error propagated to the
caller. -/
inductive IdemOutcome (ε α : Type) where
  | badRequest (code : String)
  | cached (body : α)
  | created (body : α)
  | handlerError (e : ε)
deriving DecidableEq

/-- Result of `intercept`: the outcome, the idempotency-store state
afterwards, whether the route handler was executed at all, and the value of
the `X-Idempotency-Result` response header when one is set. -/
structure InterceptResult (ε α : Type) where
  outcome : IdemOutcome ε α
  state : IdempotencyState α
  handlerInvoked : Bool
  idempotencyHeader : Option String

/-- `IdempotencyInterceptor.intercept`. `key?` is the `Idempotency-Key`
header (absent = `none`); `handler` is what the route handler would produce
if executed (`Except.error` models the handler erroring mid-operation). -/
def IdempotencyInterceptor.intercept (s : IdempotencyState α)
    (key? : Option String) (now : ℤ) (handler : Except ε α) :
    InterceptResult ε α :=
  match key? with
  | none =>
      { outcome := .badRequest "MISSING_IDEMPOTENCY_KEY", state := s,
        handlerInvoked := false, idempotencyHeader := none }
  | some key =>
      if !UUID_V4_test key then
        { outcome := .badRequest "INVALID_IDEMPOTENCY_KEY", state := s,
          handlerInvoked := false, idempotencyHeader := none }
      else
        match IdempotencyService.get s key now with
        | (some cachedEntry, s1) =>
            { outcome := .cached cachedEntry.body, state := s1,
              handlerInvoked := false, idempotencyHeader := some "cached" }
        | (none, s1) =>
            match handler with
            | .ok data =>
                { outcome := .created data,
                  state := IdempotencyService.set s1 key data now,
                  handlerInvoked := true, idempotencyHeader := some "created" }
            | .error e =>
                { outcome := .handlerError e, state := s1,
                  handlerInvoked := true, idempotencyHeader := none }

/-! ## Quotes service (`quotes.service.ts`) -/

/-- `status: 'APPROVED' | 'PENDING'`. -/
inductive QuoteStatus where
  | APPROVED
  | PENDING
deriving DecidableEq, Repr

/-- The request DTO fields used by `QuotesService` (`create-quote.dto.ts`).
`metadata` is optional in the request; monetary amounts are rationals. -/
structure CreateQuoteDto where
  documentId : String
  documentType : String
  insuredName : String
  insuredEmail : String
  coverageAmount : ℚ
  currency : String
  effectiveDate : String
  expiryDate : String
  metadata : Option (List (String × String)) := none
deriving DecidableEq

/-- The `RATES` table: `AUTO: 0.025, HOME: 0.018, LIFE: 0.012,
HEALTH: 0.020, TRAVEL: 0.008`; other keys are absent. -/
def RATES (documentType : String) : Option ℚ :=
  if documentType = "AUTO" then some 0.025
  else if documentType = "HOME" then some 0.018
  else if documentType = "LIFE" then some 0.012
  else if documentType = "HEALTH" then some 0.020
  else if documentType = "TRAVEL" then some 0.008
  else none

/-- JavaScript `Math.round`: rounds to the nearest integer, halves toward
positive infinity. -/
def mathRound (x : ℚ) : ℤ := ⌊x + 1 / 2⌋

/-- Result of the aggregator call or of the fallback: the computed premium
and the resulting status. -/
structure AggregatorResult where
  premium : ℚ
  status : QuoteStatus
deriving DecidableEq, Repr

/-- `callExternalAggregator`: the simulated external pricing call.
`failureDraw` resolves the `Math.random() < 0.05` draw (`true` = the
simulated timeout error is thrown, modelled as `none`); on success the
premium is `Math.round(coverageAmount * rate * 100) / 100` with
`rate = RATES[documentType] ?? 0.02`, and the status is `APPROVED`. -/
def callExternalAggregator (failureDraw : Bool) (quoteData : CreateQuoteDto) :
    Option AggregatorResult :=
  if failureDraw then none
  else
    let rate := (RATES quoteData.documentType).getD 0.02
    let premium := (mathRound (quoteData.coverageAmount * rate * 100) : ℚ) / 100
    some { premium := premium, status := .APPROVED }

/-- The breaker fallback registered in `QuotesService.onModuleInit`: the same
premium formula over the same `RATES` table, with status `PENDING`. It is a
total function — it never throws. -/
def breakerFallback (quoteData : CreateQuoteDto) : AggregatorResult :=
  let rate := (RATES quoteData.documentType).getD 0.02
  { premium := (mathRound (quoteData.coverageAmount * rate * 100) : ℚ) / 100,
    status := .PENDING }

/-- A stored quote (`interface Quote`). -/
structure Quote where
  quoteId : String
  documentId : String
  documentType : String
  insuredName : String
  insuredEmail : String
  coverageAmount : ℚ
  currency : String
  effectiveDate : String
  expiryDate : String
  premium : ℚ
  status : QuoteStatus
  metadata : List (String × String)
  createdAt : String
  updatedAt : String
deriving DecidableEq

/-- A typed API error as thrown by the service (`NotFoundException` payload:
`status`, `code`, `error`, `message`). -/
structure ApiError where
  status : ℕ
  code : String
  error : String
  message : String
deriving DecidableEq

/-- `QuotesService.createQuote` after the breaker has produced
`aggregatorResult`: builds the `Quote` from the DTO and the aggregator
result, stores it in `quotesDb` under its fresh `quoteId`, and returns it.
The generated id and the ISO timestamp are passed explicitly. Returns the
quote together with the updated `quotesDb`. -/
def QuotesService.createQuote (db : String → Option Quote)
    (dto : CreateQuoteDto) (aggregatorResult : AggregatorResult)
    (generatedQuoteId : String) (nowIso : String) :
    Quote × (String → Option Quote) :=
  let quote : Quote :=
    { quoteId := generatedQuoteId
      documentId := dto.documentId
      documentType := dto.documentType
      insuredName := dto.insuredName
      insuredEmail := dto.insuredEmail
      coverageAmount := dto.coverageAmount
      currency := dto.currency
      effectiveDate := dto.effectiveDate
      expiryDate := dto.expiryDate
      premium := aggregatorResult.premium
      status := aggregatorResult.status
      metadata := dto.metadata.getD []
      createdAt := nowIso
      updatedAt := nowIso }
  (quote, fun k => if k = quote.quoteId then some quote else db k)

/-- `QuotesService.getQuoteById`: a present id returns the stored quote; a
missing id throws `NotFoundException` with `status 404`, `code NOT_FOUND`. -/
def QuotesService.getQuoteById (db : String → Option Quote)
    (quoteId : String) : Except ApiError Quote :=
  match db quoteId with
  | none =>
      .error { status := 404, code := "NOT_FOUND", error := "Not Found",
               message := "Quote with id \"" ++ quoteId ++ "\" not found" }
  | some quote => .ok quote

/-! ## Circuit breaker state machine -/

/-- The three breaker states. -/
inductive BreakerStateTag where
  | CLOSED
  | OPEN
  | HALF_OPEN
deriving DecidableEq, Repr

/-- Breaker configuration, as set up in `QuotesService.onModuleInit`
(`timeout` concerns wall-clock call duration and is not modelled as a
separate failure source: a timed-out call counts as a failed call). -/
structure BreakerOpts where
  errorThresholdPercentage : ℕ
  resetTimeout : ℤ
  volumeThreshold : ℕ
deriving DecidableEq, Repr

/-- Modelled from the spec: the circuit-breaker state machine of the design
specification (the implementation is the external `opossum` dependency, whose
source is not part of this repository). Current state, the rolling window of
recent outcomes (`true` = failure, most recent first) sized by
`volumeThreshold`, and the time the breaker last entered `OPEN`. -/
structure Breaker where
  opts : BreakerOpts
  tag : BreakerStateTag
  window : List Bool
  openedAt : ℤ
deriving DecidableEq, Repr

/-- Push a call outcome into the rolling window, keeping the most recent
`volumeThreshold` outcomes. -/
def Breaker.recordOutcome (opts : BreakerOpts) (window : List Bool)
    (isFailure : Bool) : List Bool :=
  (isFailure :: window).take opts.volumeThreshold

/-- Modelled from the spec: the CLOSED-to-OPEN trip condition — call count in
the window at least `volumeThreshold` AND observed failure rate at least
`errorThresholdPercentage` (stated without division:
`pct * count ≤ 100 * failures`). -/
def Breaker.shouldTrip (opts : BreakerOpts) (window : List Bool) : Bool :=
  opts.volumeThreshold ≤ window.length &&
  opts.errorThresholdPercentage * window.length ≤ 100 * window.count true

/-- Result of one `fire`: whether the caller got the fallback result or the
wrapped call's result, whether the wrapped operation was invoked at all, and
the breaker afterwards. -/
structure FireResult where
  usedFallback : Bool
  wrappedInvoked : Bool
  breaker : Breaker
deriving DecidableEq, Repr

/-- Modelled from the spec: the automatic OPEN-to-HALF_OPEN transition once
`resetTimeout` has elapsed since entering OPEN. -/
def Breaker.tick (b : Breaker) (now : ℤ) : Breaker :=
  if b.tag = .OPEN ∧ b.openedAt + b.opts.resetTimeout ≤ now then
    { b with tag := .HALF_OPEN }
  else b

/-- Modelled from the spec: dispatching one call through the breaker.
`callFails` resolves what the wrapped operation would do if invoked.
CLOSED: the wrapped call runs, its outcome enters the rolling window, a
failure triggers the fallback for this caller, and the breaker trips to OPEN
when `shouldTrip` holds on the updated window. OPEN: the wrapped call is
never invoked and the fallback serves the caller immediately. HALF_OPEN: a
single trial call runs; success closes the breaker (clearing the window),
failure reopens it and restarts the `resetTimeout` clock. -/
def Breaker.fire (b : Breaker) (now : ℤ) (callFails : Bool) : FireResult :=
  match b.tag with
  | .CLOSED =>
      let window := Breaker.recordOutcome b.opts b.window callFails
      if Breaker.shouldTrip b.opts window then
        { usedFallback := callFails, wrappedInvoked := true,
          breaker := { b with tag := .OPEN, window := window, openedAt := now } }
      else
        { usedFallback := callFails, wrappedInvoked := true,
          breaker := { b with window := window } }
  | .OPEN =>
      { usedFallback := true, wrappedInvoked := false, breaker := b }
  | .HALF_OPEN =>
      if callFails then
        { usedFallback := true, wrappedInvoked := true,
          breaker := { b with tag := .OPEN, openedAt := now } }
      else
        { usedFallback := false, wrappedInvoked := true,
          breaker := { b with tag := .CLOSED, window := [] } }

/-! ## Sample values used by the witness theorems -/

/-- A well-formed UUID v4 (version nibble `4` at index 14, variant nibble
`a` at index 19). -/
def sampleKey : String := "123e4567-e89b-42d3-a456-426614174000"

/-! ## Claims about the idempotency subsystem -/

/-- C1: a repeated Idempotency-Key within the TTL returns the originally
cached response body unchanged, marks the response as served from cache
(`X-Idempotency-Result: cached`), does not re-execute the handler, and does
so for an arbitrary second handler (the request body is never compared — the
key alone decides). -/
theorem C1_repeat_key_serves_cached_response {α ε : Type}
    (s : IdempotencyState α) (key : String) (t1 t2 : ℤ) (b : α)
    (handler2 : Except ε α)
    (hkey : UUID_V4_test key = true) (hmiss : s.store key = none)
    (httl : t2 - t1 < s.ttlMs) :
    (IdempotencyInterceptor.intercept s (some key) t1
        (Except.ok (ε := ε) b)).outcome = IdemOutcome.created b ∧
    IdempotencyInterceptor.intercept
        (IdempotencyInterceptor.intercept s (some key) t1
          (Except.ok (ε := ε) b)).state
        (some key) t2 handler2 =
      { outcome := IdemOutcome.cached b,
        state := (IdempotencyInterceptor.intercept s (some key) t1
          (Except.ok (ε := ε) b)).state,
        handlerInvoked := false,
        idempotencyHeader := some "cached" } := by
  simp [IdempotencyInterceptor.intercept, IdempotencyService.get,
    IdempotencyService.set, hkey, hmiss, httl]

/-- C1 witness: concrete run of the theorem at the sample key, with the
second handler an error (a different body) — the cached body `7` wins. -/
theorem C1_repeat_key_serves_cached_response_witness :
    (IdempotencyInterceptor.intercept (IdempotencyService.init ℕ none)
        (some sampleKey) 0 (Except.ok (ε := Unit) 7)).outcome
      = IdemOutcome.created 7 ∧
    IdempotencyInterceptor.intercept
        (IdempotencyInterceptor.intercept (IdempotencyService.init ℕ none)
          (some sampleKey) 0 (Except.ok (ε := Unit) 7)).state
        (some sampleKey) 5 (Except.error ()) =
      { outcome := IdemOutcome.cached 7,
        state := (IdempotencyInterceptor.intercept
          (IdempotencyService.init ℕ none) (some sampleKey) 0
          (Except.ok (ε := Unit) 7)).state,
        handlerInvoked := false,
        idempotencyHeader := some "cached" } :=
  C1_repeat_key_serves_cached_response (IdempotencyService.init ℕ none)
    sampleKey 0 5 7 (Except.error ()) (by decide) rfl (by decide)

/-- C2 counterexample: `set` is not append-once. With the default TTL, a
record stored at time 0 is still live at time 5, yet a second `set` replaces
both the body and the creation timestamp. -/
theorem C2_second_set_changes_record_counterexample :
    (5 - (0 : ℤ) < (IdempotencyService.init ℕ none).ttlMs) ∧
    (IdempotencyService.set (IdempotencyService.init ℕ none) "k" 1 0).store "k"
        = some { body := 1, createdAt := 0 } ∧
    (IdempotencyService.set
        (IdempotencyService.set (IdempotencyService.init ℕ none) "k" 1 0)
        "k" 2 5).store "k"
        = some { body := 2, createdAt := 5 } ∧
    some { body := 2, createdAt := 5 }
        ≠ (some { body := 1, createdAt := 0 } : Option (CachedEntry ℕ)) := by
  refine ⟨by decide, by decide, by decide, by decide⟩

/-- C2 amended: `set` is last-write-wins, not append-once — a second `set`
for a key whose record is still live replaces the record, which afterwards
holds the second call's body and timestamp. (Append-once holds only at the
interceptor level, which calls `set` solely after a cache miss.) -/
theorem C2_set_last_write_wins {α : Type} (s : IdempotencyState α)
    (key : String) (b1 b2 : α) (t1 t2 : ℤ)
    (_hlive : t2 - t1 < s.ttlMs) :
    (IdempotencyService.set (IdempotencyService.set s key b1 t1) key b2
        t2).store key
      = some { body := b2, createdAt := t2 } := by
  simp [IdempotencyService.set]

/-- C2 witness: the amended statement at a concrete live record. -/
theorem C2_set_last_write_wins_witness :
    (5 - (0 : ℤ) < (IdempotencyService.init ℕ none).ttlMs) ∧
    (IdempotencyService.set
        (IdempotencyService.set (IdempotencyService.init ℕ none) "k" 1 0)
        "k" 2 5).store "k"
      = some { body := 2, createdAt := 5 } :=
  ⟨by decide,
   C2_set_last_write_wins (IdempotencyService.init ℕ none) "k" 1 2 0 5
     (by decide)⟩

/-- C3: a missing Idempotency-Key header fails with
`MISSING_IDEMPOTENCY_KEY`, and a key not matching the UUID-v4 shape fails
with `INVALID_IDEMPOTENCY_KEY`; in both cases the failure happens before any
business logic: the store is untouched and the handler is never invoked. -/
theorem C3_key_validation_rejects_before_handler {α ε : Type}
    (s : IdempotencyState α) (now : ℤ) (handler : Except ε α)
    (badKey : String) (hbad : UUID_V4_test badKey = false) :
    IdempotencyInterceptor.intercept s none now handler
        = { outcome := .badRequest "MISSING_IDEMPOTENCY_KEY", state := s,
            handlerInvoked := false, idempotencyHeader := none } ∧
    IdempotencyInterceptor.intercept s (some badKey) now handler
        = { outcome := .badRequest "INVALID_IDEMPOTENCY_KEY", state := s,
            handlerInvoked := false, idempotencyHeader := none } := by
  exact ⟨rfl, by simp [IdempotencyInterceptor.intercept, hbad]⟩

/-- C3 witness: concrete rejection of a missing header and of the malformed
key `"not-a-uuid"`. -/
theorem C3_key_validation_rejects_before_handler_witness :
    IdempotencyInterceptor.intercept (IdempotencyService.init ℕ none) none 0
        (Except.ok (ε := Unit) 0)
      = { outcome := .badRequest "MISSING_IDEMPOTENCY_KEY",
          state := IdempotencyService.init ℕ none,
          handlerInvoked := false, idempotencyHeader := none } ∧
    IdempotencyInterceptor.intercept (IdempotencyService.init ℕ none)
        (some "not-a-uuid") 0 (Except.ok (ε := Unit) 0)
      = { outcome := .badRequest "INVALID_IDEMPOTENCY_KEY",
          state := IdempotencyService.init ℕ none,
          handlerInvoked := false, idempotencyHeader := none } :=
  C3_key_validation_rejects_before_handler (IdempotencyService.init ℕ none) 0
    (Except.ok 0) "not-a-uuid" (by decide)

/-- C7: only successful outcomes are cached. On a validated key that misses
the cache, a handler error leaves the store exactly as it was — nothing is
stored under the key — and the error propagates; hence a retry with the same
key re-executes the operation (and only then is the result stored). -/
theorem C7_handler_error_stores_nothing {α ε : Type}
    (s : IdempotencyState α) (key : String) (now : ℤ) (e : ε)
    (hkey : UUID_V4_test key = true) (hmiss : s.store key = none) :
    IdempotencyInterceptor.intercept s (some key) now
        (Except.error (α := α) e)
      = { outcome := .handlerError e, state := s, handlerInvoked := true,
          idempotencyHeader := none } ∧
    ∀ b : α, (IdempotencyInterceptor.intercept s (some key) now
        (Except.ok (ε := ε) b)).outcome = .created b := by
  constructor
  · simp [IdempotencyInterceptor.intercept, IdempotencyService.get, hkey,
      hmiss]
  · intro b
    simp [IdempotencyInterceptor.intercept, IdempotencyService.get, hkey,
      hmiss]

/-- C7 witness: a concrete failed first attempt leaves the empty store
unchanged, and the retry with the same key executes and succeeds. -/
theorem C7_handler_error_stores_nothing_witness :
    IdempotencyInterceptor.intercept (IdempotencyService.init ℕ none)
        (some sampleKey) 0 (Except.error (α := ℕ) ())
      = { outcome := .handlerError (), state := IdempotencyService.init ℕ none,
          handlerInvoked := true, idempotencyHeader := none } ∧
    ∀ b : ℕ, (IdempotencyInterceptor.intercept (IdempotencyService.init ℕ none)
        (some sampleKey) 0 (Except.ok (ε := Unit) b)).outcome = .created b :=
  C7_handler_error_stores_nothing (IdempotencyService.init ℕ none) sampleKey 0
    () (by decide) rfl

/-- C8: TTL-based lazy eviction in the lookup. For a stored record, the
lookup is a hit returning the record (state untouched) exactly when its age
is below the TTL, and otherwise a miss that also removes the record from the
store; the default TTL is 86400 seconds (86400000 ms). -/
theorem C8_ttl_expiry_treated_as_absent {α : Type} (s : IdempotencyState α)
    (key : String) (now : ℤ) (entry : CachedEntry α)
    (hsome : s.store key = some entry) :
    IdempotencyService.get s key now
      = (if now - entry.createdAt < s.ttlMs then (some entry, s)
         else (none,
           { s with store := fun k => if k = key then none else s.store k })) ∧
    (IdempotencyService.init α none).ttlMs = 86400 * 1000 := by
  constructor
  · simp only [IdempotencyService.get, hsome]
  · rfl

/-- C8 witness: a record created at time 0 looked up at the default TTL
boundary plus one millisecond is a miss and is evicted; the theorem's
if-expression selects the eviction branch at this input. -/
theorem C8_ttl_expiry_treated_as_absent_witness :
    IdempotencyService.get
        (IdempotencyService.set (IdempotencyService.init ℕ none) "k" 9 0)
        "k" 86400001
      = (if (86400001 : ℤ) - (0 : ℤ)
            < (IdempotencyService.set (IdempotencyService.init ℕ none)
                "k" 9 0).ttlMs
         then (some { body := 9, createdAt := 0 },
               IdempotencyService.set (IdempotencyService.init ℕ none) "k" 9 0)
         else (none,
           { IdempotencyService.set (IdempotencyService.init ℕ none) "k" 9 0
               with
             store := fun k => if k = "k" then none
               else (IdempotencyService.set (IdempotencyService.init ℕ none)
                 "k" 9 0).store k })) ∧
    (IdempotencyService.init ℕ none).ttlMs = 86400 * 1000 :=
  C8_ttl_expiry_treated_as_absent
    (IdempotencyService.set (IdempotencyService.init ℕ none) "k" 9 0)
    "k" 86400001 { body := 9, createdAt := 0 } (by decide)

/-! ## Claims about the premium computation and the breaker -/

/-- The DTO of the repository's own test payload: `AUTO`, coverage 50000. -/
def sampleAutoDto : CreateQuoteDto :=
  { documentId := "DOC123", documentType := "AUTO", insuredName := "Jane Doe",
    insuredEmail := "jane@example.com", coverageAmount := 50000,
    currency := "USD", effectiveDate := "2099-01-01",
    expiryDate := "2100-01-01" }

/-- The rate table exactly as the specification states it: AUTO 0.025,
HOME 0.018, LIFE 0.012, HEALTH 0.020, TRAVEL 0.008, default 0.02 for any
unrecognized document type. -/
def specRate (documentType : String) : ℚ :=
  if documentType = "AUTO" then 0.025
  else if documentType = "HOME" then 0.018
  else if documentType = "LIFE" then 0.012
  else if documentType = "HEALTH" then 0.020
  else if documentType = "TRAVEL" then 0.008
  else 0.02

theorem RATES_getD_eq_specRate (d : String) :
    (RATES d).getD 0.02 = specRate d := by
  unfold RATES specRate
  split_ifs <;> rfl

/-- C4: the breaker fallback computes, for every input, the same premium as
the successful external call (same formula over the same rate table), with
status `PENDING` where the success path has `APPROVED`; the fallback is a
total function (it never throws); at AUTO with coverage 50000 both paths
yield premium 1250. -/
theorem C4_fallback_matches_success_path (quoteData : CreateQuoteDto) :
    callExternalAggregator false quoteData
      = some { premium := (breakerFallback quoteData).premium,
               status := .APPROVED } ∧
    (breakerFallback quoteData).status = .PENDING ∧
    (breakerFallback sampleAutoDto).premium = 1250 ∧
    callExternalAggregator false sampleAutoDto
      = some { premium := 1250, status := .APPROVED } := by
  refine ⟨by simp [callExternalAggregator, breakerFallback], rfl, ?_, ?_⟩
  · norm_num [breakerFallback, RATES, sampleAutoDto, mathRound]
  · norm_num [callExternalAggregator, RATES, sampleAutoDto, mathRound]

/-- C5: on success, the wrapped external call returns
`premium = round(coverageAmount * rate, 2 decimal places)` and status
`APPROVED`, where the rate table is exactly AUTO 0.025, HOME 0.018,
LIFE 0.012, HEALTH 0.020, TRAVEL 0.008, default 0.02 (`specRate`). -/
theorem C5_success_premium_formula (quoteData : CreateQuoteDto) :
    callExternalAggregator false quoteData
      = some { premium := (mathRound (quoteData.coverageAmount *
                  specRate quoteData.documentType * 100) : ℚ) / 100,
               status := .APPROVED } := by
  simp [callExternalAggregator, RATES_getD_eq_specRate]

/-- C6: the breaker trips CLOSED to OPEN exactly when, after recording the
call's outcome, the rolling window holds at least `volumeThreshold` outcomes
AND the observed failure rate is at least `errorThresholdPercentage`
(`pct * count ≤ 100 * failures`); and in the OPEN state the wrapped
operation is never invoked — the call is served by the fallback immediately
and the breaker is unchanged. -/
theorem C6_breaker_trip_and_open_shortcircuit (opts : BreakerOpts)
    (window : List Bool) (openedAt now : ℤ) (callFails : Bool) :
    ((Breaker.fire ⟨opts, .CLOSED, window, openedAt⟩ now callFails).breaker.tag
        = .OPEN ↔
      (opts.volumeThreshold
          ≤ (Breaker.recordOutcome opts window callFails).length ∧
       opts.errorThresholdPercentage
            * (Breaker.recordOutcome opts window callFails).length
          ≤ 100 * (Breaker.recordOutcome opts window callFails).count true)) ∧
    Breaker.fire ⟨opts, .OPEN, window, openedAt⟩ now callFails
      = { usedFallback := true, wrappedInvoked := false,
          breaker := ⟨opts, .OPEN, window, openedAt⟩ } := by
  refine ⟨?_, rfl⟩
  simp only [Breaker.fire]
  split_ifs with h
  · simp only [Breaker.shouldTrip, Bool.and_eq_true, decide_eq_true_eq] at h
    simpa using h
  · simp only [Breaker.shouldTrip, Bool.and_eq_true, decide_eq_true_eq] at h
    simp [h]

/-! ## Claims about quote creation and lookup -/

/-- A concrete stored quote, used by the lookup witness. -/
def sampleQuote : Quote :=
  (QuotesService.createQuote (fun _ => none) sampleAutoDto
    { premium := 1250, status := .APPROVED } "q-0123456789abcdef"
    "2099-01-01T00:00:00.000Z").1

/-- C9: looking up a quote id absent from the store yields the typed
not-found error (`status 404`, `code NOT_FOUND`) rather than a result, and
looking up a present id returns the stored quote. -/
theorem C9_get_quote_by_id_not_found (db : String → Option Quote)
    (quoteId : String) (hnone : db quoteId = none) :
    QuotesService.getQuoteById db quoteId
      = .error { status := 404, code := "NOT_FOUND", error := "Not Found",
                 message := "Quote with id \"" ++ quoteId ++ "\" not found" } ∧
    ∀ (db2 : String → Option Quote) (q : Quote), db2 quoteId = some q →
      QuotesService.getQuoteById db2 quoteId = .ok q := by
  constructor
  · simp [QuotesService.getQuoteById, hnone]
  · intro db2 q h
    simp [QuotesService.getQuoteById, h]

/-- C9 witness: a concrete miss on the empty store produces the typed 404,
and a concrete hit returns the stored quote. -/
theorem C9_get_quote_by_id_not_found_witness :
    QuotesService.getQuoteById (fun _ => none) "q-does-not-exist"
      = .error { status := 404, code := "NOT_FOUND", error := "Not Found",
                 message :=
                   "Quote with id \"q-does-not-exist\" not found" } ∧
    QuotesService.getQuoteById (fun _ => some sampleQuote) "q-does-not-exist"
      = .ok sampleQuote :=
  ⟨(C9_get_quote_by_id_not_found (fun _ => none) "q-does-not-exist" rfl).1,
   (C9_get_quote_by_id_not_found (fun _ => none) "q-does-not-exist" rfl).2
     (fun _ => some sampleQuote) sampleQuote rfl⟩

/-- C10: a successful `createQuote` stores the returned quote in the quote
store under its `quoteId`, so an immediate `getQuoteById` on that id returns
exactly that quote; and the quote's status is always `APPROVED` or
`PENDING`. -/
theorem C10_create_then_get_roundtrip (db : String → Option Quote)
    (dto : CreateQuoteDto) (aggregatorResult : AggregatorResult)
    (generatedQuoteId nowIso : String) :
    (QuotesService.createQuote db dto aggregatorResult generatedQuoteId
          nowIso).2
        (QuotesService.createQuote db dto aggregatorResult generatedQuoteId
          nowIso).1.quoteId
      = some (QuotesService.createQuote db dto aggregatorResult
          generatedQuoteId nowIso).1 ∧
    QuotesService.getQuoteById
        (QuotesService.createQuote db dto aggregatorResult generatedQuoteId
          nowIso).2
        (QuotesService.createQuote db dto aggregatorResult generatedQuoteId
          nowIso).1.quoteId
      = .ok (QuotesService.createQuote db dto aggregatorResult
          generatedQuoteId nowIso).1 ∧
    ((QuotesService.createQuote db dto aggregatorResult generatedQuoteId
          nowIso).1.status = .APPROVED ∨
     (QuotesService.createQuote db dto aggregatorResult generatedQuoteId
          nowIso).1.status = .PENDING) := by
  refine ⟨?_, ?_, ?_⟩
  · simp [QuotesService.createQuote]
  · simp [QuotesService.createQuote, QuotesService.getQuoteById]
  · rcases aggregatorResult with ⟨p, st⟩
    cases st
    · exact Or.inl rfl
    · exact Or.inr rfl

end QuotesAggregator





